import Mathlib

/-!
Verification of the Cinder block-device adapter
(`flocker/node/agents/cinder.py`) against its specification.

The Python module is shallowly embedded: provider volumes, the generic
volume record, the metadata labels, the UUID string round-trip, the
polling waiter and the adapter operations are all translated into
executable Lean definitions.  External collaborators (the Cinder and Nova
clients, the clock, the local filesystem) are modelled as explicit inputs:
the listing the provider returns at each poll, the clock reading at each
poll, the volume object a create/attach call returns, the children of
`/dev` and an existence predicate on paths.  Python exceptions are
modelled as error values; the unbounded polling loop takes fuel.
-/

namespace Cinder

/-- The metadata key naming the Flocker cluster id on a provider volume. -/
def CLUSTER_ID_LABEL : String := "flocker-cluster-id"

/-- The metadata key naming the Flocker dataset id on a provider volume. -/
def DATASET_ID_LABEL : String := "flocker-dataset-id"

/-- A provider (Cinder) volume: provider-assigned id, size in the
provider's native GB unit, a status string, and a string-to-string
metadata mapping (modelled as an association list). -/
structure CinderVolume where
  id : String
  size : ℚ
  status : String
  metadata : List (String × String)
  deriving DecidableEq

/-- The generic volume record (`BlockDeviceVolume`): provider id, size in
bytes, optional attached host, and the dataset UUID (a UUID is modelled
as its 128-bit numeric value). -/
structure BlockDeviceVolume where
  blockdevice_id : String
  size : ℤ
  host : Option String
  dataset_id : Nat
  deriving DecidableEq

/-- Data carried by the timeout failure of the polling waiter.  The source
raises a generic exception whose message interpolates exactly these four
values (the expected volume, the expected status, the elapsed time and
the time limit). -/
structure ProvisioningTimeout where
  expected_volume : CinderVolume
  expected_status : String
  elapsed : ℚ
  time_limit : ℚ
  deriving DecidableEq

/-- Python exceptions raised by the embedded code, as error values.  The
last two constructors are the structured error kinds named by the
specification's error taxonomy; the source never constructs them (it
raises a bare `assert` failure and a bare UUID `ValueError`), and they
appear here only so that statements can compare the source's errors
against the specified kinds. -/
inductive PyErr where
  | keyError (key : String)
  | valueError
  | unknownVolume (blockdevice_id : String)
  | indexError
  | assertionError
  | provisioningTimeout (e : ProvisioningTimeout)
  | attachmentVerificationFailed (blockdevice_id : String) (device_path : String)
  | malformedMetadata (blockdevice_id : String) (field : String)
  deriving DecidableEq

/-- Calls the adapter issues to its capability collaborators; an
operation's returned call list is its entire effect on provider state. -/
inductive ProviderCall where
  | cinderCreate (size : ℚ) (metadata : List (String × String))
  | cinderSetMetadata (volumeId : String) (metadata : List (String × String))
  | novaCreateServerVolume (serverId : String) (volumeId : String) (device : String)
  deriving DecidableEq

/-- Outcome of an adapter operation: a value, a raised exception, or fuel
exhaustion (a model artifact standing for the unbounded polling loop not
yet having terminated). -/
inductive Run (α : Type) where
  | ok (a : α)
  | err (e : PyErr)
  | fuelOut
  deriving DecidableEq

/-- Lookup in a metadata mapping (Python `dict.get` / `dict[...]`). -/
def metaGet (metadata : List (String × String)) (key : String) : Option String :=
  (metadata.find? (fun kv => kv.1 == key)).map (fun kv => kv.2)

/-- The sixteen lowercase hexadecimal digit characters. -/
def hexDigitChars : List Char :=
  "0123456789abcdef".data

/-- The hexadecimal digit character for a value below 16. -/
def hexDigit (n : Nat) : Char :=
  hexDigitChars.getD n '0'

/-- Fixed-width big-endian hexadecimal rendering of a natural number. -/
def toHexPad : Nat → Nat → List Char
  | 0, _ => []
  | w + 1, n => toHexPad w (n / 16) ++ [hexDigit (n % 16)]

/-- Numeric value of one hexadecimal digit character, if any; codes
48-57 are the decimal digits, 97-102 and 65-70 the two letter cases. -/
def hexVal (c : Char) : Option Nat :=
  if 48 ≤ c.toNat && c.toNat ≤ 57 then some (c.toNat - 48)
  else if 97 ≤ c.toNat && c.toNat ≤ 102 then some (c.toNat - 87)
  else if 65 ≤ c.toNat && c.toNat ≤ 70 then some (c.toNat - 55)
  else none

/-- Left-to-right accumulator parse of a hexadecimal digit string. -/
def parseHexAux : List Char → Nat → Option Nat
  | [], acc => some acc
  | c :: cs, acc =>
    match hexVal c with
    | some d => parseHexAux cs (16 * acc + d)
    | none => none

/-- Model of Python's `uuid.UUID(string)` constructor (standard library,
external to the repository): dashes are removed and exactly 32
hexadecimal digits are required, else `ValueError` (`none` here).  The
stdlib additionally strips `urn:uuid:` prefixes and surrounding braces;
no caller in this system produces those forms, so they are not modelled. -/
def parseUUID (s : String) : Option Nat :=
  let digits := s.data.filter (fun c => c != '-')
  if digits.length = 32 then parseHexAux digits 0 else none

/-- Model of Python's `str`/`unicode` on a UUID value (standard library):
the canonical lowercase dashed form, 8-4-4-4-12 hexadecimal digits. -/
def uuidStr (u : Nat) : String :=
  let h := toHexPad 32 u
  String.mk (h.take 8 ++ '-' :: (h.drop 8).take 4 ++ '-' :: (h.drop 12).take 4
    ++ '-' :: (h.drop 16).take 4 ++ '-' :: h.drop 20)

/-- Python `int()` applied to an exact numeric value: truncation toward
zero.  (The source computes sizes with `bitmath` floating-point values;
the arithmetic is modelled exactly over the rationals.) -/
def pyInt (q : ℚ) : ℤ :=
  if 0 ≤ q then ⌊q⌋ else -⌊-q⌋

/-- Conversion of a byte count to the provider's GB unit:
`Byte(size).to_GB().value`, where one GB is `10^9` bytes. -/
def byteToGB (size : Nat) : ℚ :=
  (size : ℚ) / 1000000000

/-- Embedding of `_is_cluster_volume(cluster_id, cinder_volume)`: look up
the cluster label; absent means not ours; a present value is parsed with
`UUID(...)` (raising `ValueError` on malformed input) and compared with
the configured cluster id. -/
def _is_cluster_volume (cluster_id : Nat) (cinder_volume : CinderVolume) :
    Except PyErr Bool :=
  match metaGet cinder_volume.metadata CLUSTER_ID_LABEL with
  | none => Except.ok false
  | some s =>
    match parseUUID s with
    | none => Except.error PyErr.valueError
    | some actual_cluster_id => Except.ok (actual_cluster_id == cluster_id)

/-- Embedding of `_blockdevicevolume_from_cinder_volume(cinder_volume)`:
the record is built from the provider volume's id, its size converted
from GB to bytes with `int(GB(size).to_Byte().value)`, `host` always
`None`, and the dataset label parsed as a UUID (`KeyError` when the
label is absent, `ValueError` when it is not a UUID). -/
def _blockdevicevolume_from_cinder_volume (cinder_volume : CinderVolume) :
    Except PyErr BlockDeviceVolume :=
  match metaGet cinder_volume.metadata DATASET_ID_LABEL with
  | none => Except.error (PyErr.keyError DATASET_ID_LABEL)
  | some s =>
    match parseUUID s with
    | none => Except.error PyErr.valueError
    | some d =>
      Except.ok
        { blockdevice_id := cinder_volume.id
          size := pyInt (cinder_volume.size * 1000000000)
          host := none
          dataset_id := d }

/-- Embedding of `CinderBlockDeviceAPI.list_volumes` over the listing the
provider returned: keep each volume accepted by `_is_cluster_volume`,
map it to a record, and propagate the first exception raised. -/
def list_volumes (listing : List CinderVolume) (cluster_id : Nat) :
    Except PyErr (List BlockDeviceVolume) :=
  match listing with
  | [] => Except.ok []
  | v :: rest =>
    match _is_cluster_volume cluster_id v with
    | Except.error e => Except.error e
    | Except.ok true =>
      match _blockdevicevolume_from_cinder_volume v with
      | Except.error e => Except.error e
      | Except.ok bv =>
        match list_volumes rest cluster_id with
        | Except.error e => Except.error e
        | Except.ok bvs => Except.ok (bv :: bvs)
    | Except.ok false => list_volumes rest cluster_id

/-- Embedding of `CinderBlockDeviceAPI._get`: scan `list_volumes` for the
first record with the requested id, raising `UnknownVolume` (which does
carry the id) when none matches. -/
def _get (listing : List CinderVolume) (cluster_id : Nat) (blockdevice_id : String) :
    Except PyErr BlockDeviceVolume :=
  match list_volumes listing cluster_id with
  | Except.error e => Except.error e
  | Except.ok vols =>
    match vols.find? (fun v => v.blockdevice_id == blockdevice_id) with
    | some v => Except.ok v
    | none => Except.error (PyErr.unknownVolume blockdevice_id)

/-- Match predicate of the waiter's inner scan: the listed volume has the
expected volume's id and the expected status. -/
def volumeMatches (expected_id : String) (expected_status : String)
    (v : CinderVolume) : Bool :=
  v.id == expected_id && v.status == expected_status

/-- Result of the polling waiter: the matching listed volume, a timeout
failure, or fuel exhaustion (the loop still running). -/
inductive WaitResult where
  | found (v : CinderVolume)
  | timeout (e : ProvisioningTimeout)
  | fuelOut
  deriving DecidableEq

/-- The body of `wait_for_volume`'s `while True` loop.  `listAt n` is the
listing the provider returns at the n-th poll, `now n` the `time.time()`
reading taken after that poll, and `start` the reading taken on entry.
Each iteration scans the listing for the expected id with the expected
status; otherwise it times out once the elapsed time reaches the limit,
and sleeps and repolls while it does not. -/
def waitLoop (listAt : Nat → List CinderVolume) (now : Nat → ℚ) (start : ℚ)
    (expected_volume : CinderVolume) (expected_status : String)
    (time_limit : ℚ) : Nat → Nat → WaitResult
  | _, 0 => WaitResult.fuelOut
  | n, f + 1 =>
    match (listAt n).find? (volumeMatches expected_volume.id expected_status) with
    | some listed_volume => WaitResult.found listed_volume
    | none =>
      if now n - start < time_limit then
        waitLoop listAt now start expected_volume expected_status time_limit (n + 1) f
      else
        WaitResult.timeout
          ⟨expected_volume, expected_status, now n - start, time_limit⟩

/-- Embedding of `wait_for_volume(volume_manager, expected_volume,
expected_status, time_limit)`: the polling loop started at poll 0. -/
def wait_for_volume (listAt : Nat → List CinderVolume) (now : Nat → ℚ)
    (start : ℚ) (expected_volume : CinderVolume) (expected_status : String)
    (time_limit : ℚ) (fuel : Nat) : WaitResult :=
  waitLoop listAt now start expected_volume expected_status time_limit 0 fuel

/-- The metadata dictionary `create_volume` builds: the configured cluster
id and the requested dataset id, both rendered with `unicode(...)`. -/
def createMetadata (cluster_id : Nat) (dataset_id : Nat) :
    List (String × String) :=
  [(CLUSTER_ID_LABEL, uuidStr cluster_id), (DATASET_ID_LABEL, uuidStr dataset_id)]

/-- Embedding of `CinderBlockDeviceAPI.create_volume(dataset_id, size)`.
`createResp size metadata` is the `Volume` object the provider's create
call returns.  The adapter issues the create call with the size converted
to GB and the tagging metadata, waits for status `available` (default
limit 60), re-applies the metadata with `set_metadata` on the confirmed
volume, and builds the returned record from the originally requested
volume (the create call's return value), not the confirmed one. -/
def create_volume (createResp : ℚ → List (String × String) → CinderVolume)
    (listAt : Nat → List CinderVolume) (now : Nat → ℚ) (start : ℚ)
    (fuel : Nat) (cluster_id : Nat) (dataset_id : Nat) (size : Nat) :
    Run BlockDeviceVolume × List ProviderCall :=
  let metadata := createMetadata cluster_id dataset_id
  let requested_volume := createResp (byteToGB size) metadata
  let calls := [ProviderCall.cinderCreate (byteToGB size) metadata]
  match waitLoop listAt now start requested_volume "available" 60 0 fuel with
  | WaitResult.fuelOut => (Run.fuelOut, calls)
  | WaitResult.timeout e => (Run.err (PyErr.provisioningTimeout e), calls)
  | WaitResult.found created_volume =>
    let calls := calls ++ [ProviderCall.cinderSetMetadata created_volume.id metadata]
    match _blockdevicevolume_from_cinder_volume requested_volume with
    | Except.error e => (Run.err e, calls)
    | Except.ok bv => (Run.ok bv, calls)

/-- Python `str.rstrip()`: trailing whitespace removed. -/
def pyRstrip (s : String) : String :=
  String.mk ((s.data.reverse.dropWhile Char.isWhitespace).reverse)

/-- Embedding of `_instance_uuid()`: the xenstore `name` value is
stripped of trailing whitespace, the 9-character `instance-` prefix is
dropped, and the remainder is parsed as a UUID (`none` models the
`ValueError` a malformed remainder raises). -/
def _instance_uuid (xenstoreName : String) : Option Nat :=
  parseUUID (String.mk ((pyRstrip xenstoreName).data.drop 9))

/-- Prefix test on character lists (Python `str.startswith`). -/
def listIsPrefixOf : List Char → List Char → Bool
  | [], _ => true
  | _ :: _, [] => false
  | c :: cs, d :: ds => c == d && listIsPrefixOf cs ds

/-- Whether the string `s` starts with the prefix `pfx`. -/
def strStartsWith (pfx : String) (s : String) : Bool :=
  listIsPrefixOf pfx.data s.data

/-- Last path segment (the characters after the last slash), as Twisted's
`FilePath.basename()` returns it. -/
def pathBasename (p : String) : String :=
  String.mk ((p.data.reverse.takeWhile (fun c => c != '/')).reverse)

/-- Whether a `/dev` child counts as an existing allocated device:
its path starts with `/dev/xvd` and its basename has 4 characters. -/
def matchesXvd (p : String) : Bool :=
  strStartsWith "/dev/xvd" p && (pathBasename p).length == 4

/-- The 26 lowercase ASCII letters (`string.ascii_lowercase`). -/
def ascii_lowercase : List Char :=
  "abcdefghijklmnopqrstuvwxyz".data

/-- Embedding of `_next_device()` over the children of `/dev`: count the
existing matching device nodes and append `letters[count]` to the
prefix.  `none` models the `IndexError` the unguarded indexing raises
when 26 or more matching nodes exist. -/
def _next_device (devChildren : List String) : Option String :=
  let existing := devChildren.filter matchesXvd
  match ascii_lowercase.get? existing.length with
  | some c => some (String.push "/dev/xvd" c)
  | none => none

/-- Embedding of `CinderBlockDeviceAPI.attach_volume(blockdevice_id,
host)`.  `listing` is the provider listing `_get`'s `list_volumes` call
sees; `novaResp` is the `Volume` object the Nova attach call returns;
`devChildren`/`devExists` model the local filesystem.  The operation
looks up the volume, reads the local instance uuid, chooses the next
device path, issues the Nova attach call, waits for status `in-use`,
asserts the device path exists (a bare `assert`, carrying no payload),
and returns the looked-up record with `host` set. -/
def attach_volume (listing : List CinderVolume)
    (listAt : Nat → List CinderVolume) (now : Nat → ℚ) (start : ℚ)
    (fuel : Nat) (novaResp : String → String → String → CinderVolume)
    (xenstoreName : String) (devChildren : List String)
    (devExists : String → Bool) (cluster_id : Nat)
    (blockdevice_id : String) (host : String) :
    Run BlockDeviceVolume × List ProviderCall :=
  match _get listing cluster_id blockdevice_id with
  | Except.error e => (Run.err e, [])
  | Except.ok unattached_volume =>
    match _instance_uuid xenstoreName with
    | none => (Run.err PyErr.valueError, [])
    | some local_instance_uuid =>
      match _next_device devChildren with
      | none => (Run.err PyErr.indexError, [])
      | some device_path =>
        let nova_volume :=
          novaResp (uuidStr local_instance_uuid) unattached_volume.blockdevice_id
            device_path
        let calls :=
          [ProviderCall.novaCreateServerVolume (uuidStr local_instance_uuid)
            unattached_volume.blockdevice_id device_path]
        match waitLoop listAt now start nova_volume "in-use" 60 0 fuel with
        | WaitResult.fuelOut => (Run.fuelOut, calls)
        | WaitResult.timeout e => (Run.err (PyErr.provisioningTimeout e), calls)
        | WaitResult.found _ =>
          if devExists device_path then
            (Run.ok { unattached_volume with host := some host }, calls)
          else
            (Run.err PyErr.assertionError, calls)

/-- Embedding of `CinderBlockDeviceAPI.resize_volume`: the body is
`pass`, so no capability call is issued and nothing is returned. -/
def resize_volume (blockdevice_id : String) (size : Nat) : List ProviderCall :=
  []

/-- Embedding of `CinderBlockDeviceAPI.detach_volume`: the body is
`pass`, so no capability call is issued and nothing is returned. -/
def detach_volume (blockdevice_id : String) : List ProviderCall :=
  []

/-- Embedding of `CinderBlockDeviceAPI.destroy_volume`: the body is
`pass`, so no capability call is issued and nothing is returned. -/
def destroy_volume (blockdevice_id : String) : List ProviderCall :=
  []

/-- Embedding of `CinderBlockDeviceAPI.get_device_path`: the body is
`pass`, so no capability call is issued and `None` is returned in place
of a path. -/
def get_device_path (blockdevice_id : String) : Option String × List ProviderCall :=
  (none, [])

/-- A listing entry is benign for `list_volumes`: its cluster label is
absent or parses as a UUID, and when it marks the volume as owned by the
given cluster the record mapping succeeds as well. -/
def listEntryClean (cluster_id : Nat) (v : CinderVolume) : Bool :=
  match metaGet v.metadata CLUSTER_ID_LABEL with
  | none => true
  | some s =>
    match parseUUID s with
    | none => false
    | some u =>
      if u = cluster_id then
        match _blockdevicevolume_from_cinder_volume v with
        | Except.ok _ => true
        | Except.error _ => false
      else true

/-- A `/dev` with all 26 device names `/dev/xvda` … `/dev/xvdz` already
present: the state on which the allocator's letter indexing overflows. -/
def devFull : List String :=
  ["/dev/xvda", "/dev/xvdb", "/dev/xvdc", "/dev/xvdd", "/dev/xvde",
   "/dev/xvdf", "/dev/xvdg", "/dev/xvdh", "/dev/xvdi", "/dev/xvdj",
   "/dev/xvdk", "/dev/xvdl", "/dev/xvdm", "/dev/xvdn", "/dev/xvdo",
   "/dev/xvdp", "/dev/xvdq", "/dev/xvdr", "/dev/xvds", "/dev/xvdt",
   "/dev/xvdu", "/dev/xvdv", "/dev/xvdw", "/dev/xvdx", "/dev/xvdy",
   "/dev/xvdz"]

/-- A cluster-owned provider volume for cluster id 5 and dataset id 7,
with well-formed labels, used as a concrete input. -/
def sampleOwnedVolume : CinderVolume :=
  { id := "vol-1"
    size := 1
    status := "available"
    metadata := [(CLUSTER_ID_LABEL, uuidStr 5), (DATASET_ID_LABEL, uuidStr 7)] }

/-- A provider volume whose cluster label is present but malformed. -/
def badClusterLabelVolume : CinderVolume :=
  { id := "vol-bad"
    size := 1
    status := "available"
    metadata := [(CLUSTER_ID_LABEL, "not-a-uuid")] }

/-- A cluster-owned provider volume (cluster id 5) whose dataset label is
present but malformed. -/
def badDatasetLabelVolume : CinderVolume :=
  { id := "vol-bad-ds"
    size := 1
    status := "available"
    metadata := [(CLUSTER_ID_LABEL, uuidStr 5), (DATASET_ID_LABEL, "not-a-uuid")] }

/-- A Nova attach response volume with the id `_get` found, used as a
concrete `novaResp` result in witnesses. -/
def sampleNovaVolume : CinderVolume :=
  { id := "vol-1", size := 1, status := "in-use", metadata := [] }

/-- A concrete provider create response that echoes the requested size
and metadata, used as `createResp` in witnesses. -/
def sampleCreateResp (gb : ℚ) (metadata : List (String × String)) : CinderVolume :=
  { id := "vol-new", size := gb, status := "available", metadata := metadata }

/-- The xenstore `name` value of a concrete local instance. -/
def sampleXenName : String :=
  "instance-00000000-0000-0000-0000-000000000001"

theorem toHexPad_length (w : Nat) : ∀ n, (toHexPad w n).length = w := by
  induction w with
  | zero => intro n; rfl
  | succ w ih =>
    intro n
    simp [toHexPad, ih]

theorem hexDigit_ne_dash (n : Nat) : hexDigit n ≠ '-' := by
  rcases Nat.lt_or_ge n 16 with h | h
  · interval_cases n <;> decide
  · rw [hexDigit, List.getD_eq_default]
    · decide
    · simpa [hexDigitChars] using h

theorem mem_toHexPad_ne_dash (w : Nat) :
    ∀ n c, c ∈ toHexPad w n → c ≠ '-' := by
  induction w with
  | zero => intro n c hc; simp [toHexPad] at hc
  | succ w ih =>
    intro n c hc
    rw [toHexPad, List.mem_append] at hc
    rcases hc with hc | hc
    · exact ih _ _ hc
    · simp at hc
      rw [hc]
      exact hexDigit_ne_dash _

theorem hexVal_hexDigit (d : Nat) (h : d < 16) : hexVal (hexDigit d) = some d := by
  interval_cases d <;> decide

theorem parseHexAux_append (xs : List Char) :
    ∀ ys acc, parseHexAux (xs ++ ys) acc =
      match parseHexAux xs acc with
      | some a => parseHexAux ys a
      | none => none := by
  induction xs with
  | nil => intro ys acc; rfl
  | cons c cs ih =>
    intro ys acc
    rw [List.cons_append, parseHexAux, parseHexAux]
    cases hexVal c with
    | none => rfl
    | some d => exact ih ys (16 * acc + d)

theorem parseHexAux_single (c : Char) (acc : Nat) :
    parseHexAux [c] acc =
      match hexVal c with
      | some d => some (16 * acc + d)
      | none => none := rfl

theorem parseHexAux_toHexPad (w : Nat) :
    ∀ n acc, n < 16 ^ w →
      parseHexAux (toHexPad w n) acc = some (acc * 16 ^ w + n) := by
  induction w with
  | zero =>
    intro n acc hn
    interval_cases n
    simp [toHexPad, parseHexAux]
  | succ w ih =>
    intro n acc hn
    have hdiv : n / 16 < 16 ^ w := by
      rw [Nat.div_lt_iff_lt_mul (by norm_num : 0 < 16)]
      calc n < 16 ^ (w + 1) := hn
        _ = 16 ^ w * 16 := by rw [pow_succ]
    rw [toHexPad, parseHexAux_append, ih (n / 16) acc hdiv]
    show parseHexAux [hexDigit (n % 16)] (acc * 16 ^ w + n / 16) = _
    rw [parseHexAux_single, hexVal_hexDigit (n % 16) (Nat.mod_lt n (by norm_num))]
    show some (16 * (acc * 16 ^ w + n / 16) + n % 16) = some (acc * 16 ^ (w + 1) + n)
    congr 1
    rw [pow_succ]
    have h1 : acc * (16 ^ w * 16) = 16 * (acc * 16 ^ w) := by ring
    rw [h1]
    omega

theorem data_mk (l : List Char) : (String.mk l).data = l := rfl

theorem filter_dash_cons (l : List Char) :
    ('-' :: l).filter (fun c => c != '-') = l.filter (fun c => c != '-') := by
  simp

theorem filter_uuidStr_data (u : Nat) :
    (uuidStr u).data.filter (fun c => c != '-') = toHexPad 32 u := by
  have hsub : ∀ l : List Char, l ⊆ toHexPad 32 u →
      l.filter (fun c => c != '-') = l := by
    intro l hl
    rw [List.filter_eq_self]
    intro c hc
    simpa using mem_toHexPad_ne_dash 32 u c (hl hc)
  rw [uuidStr, data_mk]
  rw [List.filter_append, filter_dash_cons, List.filter_append, filter_dash_cons,
    List.filter_append, filter_dash_cons, List.filter_append, filter_dash_cons]
  rw [hsub _ (List.take_subset _ _),
    hsub _ (List.Subset.trans (List.take_subset _ _) (List.drop_subset _ _)),
    hsub _ (List.Subset.trans (List.take_subset _ _) (List.drop_subset _ _)),
    hsub _ (List.Subset.trans (List.take_subset _ _) (List.drop_subset _ _)),
    hsub _ (List.drop_subset _ _)]
  have h4 : ((toHexPad 32 u).drop 16).take 4 ++ (toHexPad 32 u).drop 20 =
      (toHexPad 32 u).drop 16 := by
    conv_rhs => rw [← List.take_append_drop 4 ((toHexPad 32 u).drop 16)]
    rw [List.drop_drop]
  have h3 : ((toHexPad 32 u).drop 12).take 4 ++ (toHexPad 32 u).drop 16 =
      (toHexPad 32 u).drop 12 := by
    conv_rhs => rw [← List.take_append_drop 4 ((toHexPad 32 u).drop 12)]
    rw [List.drop_drop]
  have h2 : ((toHexPad 32 u).drop 8).take 4 ++ (toHexPad 32 u).drop 12 =
      (toHexPad 32 u).drop 8 := by
    conv_rhs => rw [← List.take_append_drop 4 ((toHexPad 32 u).drop 8)]
    rw [List.drop_drop]
  simp only [List.append_assoc]
  rw [h4, h3, h2, List.take_append_drop]

theorem parseUUID_uuidStr (u : Nat) (hu : u < 2 ^ 128) :
    parseUUID (uuidStr u) = some u := by
  have h16 : u < 16 ^ 32 := by
    calc u < 2 ^ 128 := hu
      _ = 16 ^ 32 := by norm_num
  rw [parseUUID]
  simp only [filter_uuidStr_data]
  rw [if_pos (toHexPad_length 32 u)]
  rw [parseHexAux_toHexPad 32 u 0 h16]
  simp

theorem is_cluster_volume_none (cluster_id : Nat) (v : CinderVolume)
    (hm : metaGet v.metadata CLUSTER_ID_LABEL = none) :
    _is_cluster_volume cluster_id v = Except.ok false := by
  rw [_is_cluster_volume]
  simp only [hm]

theorem is_cluster_volume_malformed (cluster_id : Nat) (v : CinderVolume)
    (s : String) (hm : metaGet v.metadata CLUSTER_ID_LABEL = some s)
    (hp : parseUUID s = none) :
    _is_cluster_volume cluster_id v = Except.error PyErr.valueError := by
  rw [_is_cluster_volume]
  simp only [hm, hp]

theorem is_cluster_volume_parsed (cluster_id : Nat) (v : CinderVolume)
    (s : String) (u : Nat) (hm : metaGet v.metadata CLUSTER_ID_LABEL = some s)
    (hp : parseUUID s = some u) :
    _is_cluster_volume cluster_id v = Except.ok (u == cluster_id) := by
  rw [_is_cluster_volume]
  simp only [hm, hp]

theorem list_volumes_cons_err (cluster_id : Nat) (v : CinderVolume)
    (rest : List CinderVolume) (e : PyErr)
    (hc : _is_cluster_volume cluster_id v = Except.error e) :
    list_volumes (v :: rest) cluster_id = Except.error e := by
  rw [list_volumes]
  simp only [hc]

theorem list_volumes_cons_false (cluster_id : Nat) (v : CinderVolume)
    (rest : List CinderVolume)
    (hc : _is_cluster_volume cluster_id v = Except.ok false) :
    list_volumes (v :: rest) cluster_id = list_volumes rest cluster_id := by
  rw [list_volumes]
  simp only [hc]

theorem list_volumes_cons_true (cluster_id : Nat) (v : CinderVolume)
    (rest : List CinderVolume)
    (hc : _is_cluster_volume cluster_id v = Except.ok true) :
    list_volumes (v :: rest) cluster_id =
      match _blockdevicevolume_from_cinder_volume v with
      | Except.error e => Except.error e
      | Except.ok bv =>
        match list_volumes rest cluster_id with
        | Except.error e => Except.error e
        | Except.ok bvs => Except.ok (bv :: bvs) := by
  rw [list_volumes]
  simp only [hc]

theorem is_cluster_volume_ok_true_iff (cluster_id : Nat) (v : CinderVolume) :
    _is_cluster_volume cluster_id v = Except.ok true ↔
      ∃ s, metaGet v.metadata CLUSTER_ID_LABEL = some s ∧
        parseUUID s = some cluster_id := by
  constructor
  · intro h
    cases hm : metaGet v.metadata CLUSTER_ID_LABEL with
    | none => rw [is_cluster_volume_none cluster_id v hm] at h; simp at h
    | some s =>
      cases hp : parseUUID s with
      | none => rw [is_cluster_volume_malformed cluster_id v s hm hp] at h; simp at h
      | some u =>
        rw [is_cluster_volume_parsed cluster_id v s u hm hp] at h
        injection h with h'
        refine ⟨s, rfl, ?_⟩
        rw [hp, beq_iff_eq.mp h']
  · rintro ⟨s, hm, hp⟩
    rw [is_cluster_volume_parsed cluster_id v s cluster_id hm hp]
    simp

theorem list_volumes_mem_iff (cluster_id : Nat) :
    ∀ (listing : List CinderVolume) (vols : List BlockDeviceVolume),
      list_volumes listing cluster_id = Except.ok vols →
      ∀ bv, bv ∈ vols ↔ ∃ v, v ∈ listing ∧
        _is_cluster_volume cluster_id v = Except.ok true ∧
        _blockdevicevolume_from_cinder_volume v = Except.ok bv := by
  intro listing
  induction listing with
  | nil =>
    intro vols h bv
    cases h
    simp
  | cons v rest ih =>
    intro vols h bv
    cases hc : _is_cluster_volume cluster_id v with
    | error e =>
      rw [list_volumes_cons_err cluster_id v rest e hc] at h
      cases h
    | ok b =>
      cases b with
      | false =>
        rw [list_volumes_cons_false cluster_id v rest hc] at h
        rw [ih vols h bv]
        constructor
        · rintro ⟨v', hv', hprop⟩
          exact ⟨v', List.mem_cons_of_mem v hv', hprop⟩
        · rintro ⟨v', hv', hown, hmap⟩
          rcases List.mem_cons.mp hv' with rfl | hv'
          · rw [hc] at hown; simp at hown
          · exact ⟨v', hv', hown, hmap⟩
      | true =>
        rw [list_volumes_cons_true cluster_id v rest hc] at h
        cases hb : _blockdevicevolume_from_cinder_volume v with
        | error e => simp only [hb] at h; cases h
        | ok bv0 =>
          simp only [hb] at h
          cases hr : list_volumes rest cluster_id with
          | error e => simp only [hr] at h; cases h
          | ok bvs =>
            simp only [hr] at h
            cases h
            rw [List.mem_cons, ih bvs hr bv]
            constructor
            · rintro (rfl | ⟨v', hv', hprop⟩)
              · exact ⟨v, List.mem_cons_self v rest, hc, hb⟩
              · exact ⟨v', List.mem_cons_of_mem v hv', hprop⟩
            · rintro ⟨v', hv', hown, hmap⟩
              rcases List.mem_cons.mp hv' with rfl | hv'
              · left
                rw [hb] at hmap
                cases hmap
                rfl
              · right
                exact ⟨v', hv', hown, hmap⟩

theorem list_volumes_clean_ok (cluster_id : Nat) :
    ∀ listing : List CinderVolume,
      (∀ v, v ∈ listing → listEntryClean cluster_id v = true) →
      ∃ vols, list_volumes listing cluster_id = Except.ok vols := by
  intro listing
  induction listing with
  | nil => intro _; exact ⟨[], rfl⟩
  | cons v rest ih =>
    intro h
    have hv := h v (List.mem_cons_self v rest)
    obtain ⟨vols, hvols⟩ := ih (fun v' hv' => h v' (List.mem_cons_of_mem v hv'))
    rw [listEntryClean] at hv
    cases hm : metaGet v.metadata CLUSTER_ID_LABEL with
    | none =>
      rw [list_volumes_cons_false cluster_id v rest (is_cluster_volume_none cluster_id v hm)]
      exact ⟨vols, hvols⟩
    | some s =>
      simp only [hm] at hv
      cases hp : parseUUID s with
      | none => simp only [hp] at hv; cases hv
      | some u =>
        simp only [hp] at hv
        by_cases hu : u = cluster_id
        · rw [if_pos hu] at hv
          cases hb : _blockdevicevolume_from_cinder_volume v with
          | error e => simp only [hb] at hv; cases hv
          | ok bv =>
            have hceq : _is_cluster_volume cluster_id v = Except.ok true := by
              rw [is_cluster_volume_parsed cluster_id v s u hm hp]
              simp [hu]
            rw [list_volumes_cons_true cluster_id v rest hceq]
            simp only [hb, hvols]
            exact ⟨bv :: vols, rfl⟩
        · have hceq : _is_cluster_volume cluster_id v = Except.ok false := by
            rw [is_cluster_volume_parsed cluster_id v s u hm hp]
            simp [hu]
          rw [list_volumes_cons_false cluster_id v rest hceq]
          exact ⟨vols, hvols⟩

theorem list_volumes_malformed_error (cluster_id : Nat) :
    ∀ listing : List CinderVolume,
      (∃ v, v ∈ listing ∧ ∃ s, metaGet v.metadata CLUSTER_ID_LABEL = some s ∧
        parseUUID s = none) →
      ∃ e, list_volumes listing cluster_id = Except.error e := by
  intro listing
  induction listing with
  | nil => rintro ⟨v, hv, _⟩; cases hv
  | cons v rest ih =>
    rintro ⟨v', hv', s, hs, hsp⟩
    rcases List.mem_cons.mp hv' with rfl | hv'
    · exact ⟨PyErr.valueError,
        list_volumes_cons_err cluster_id v' rest PyErr.valueError
          (is_cluster_volume_malformed cluster_id v' s hs hsp)⟩
    · cases hc : _is_cluster_volume cluster_id v with
      | error e => exact ⟨e, list_volumes_cons_err cluster_id v rest e hc⟩
      | ok b =>
        obtain ⟨e, he⟩ := ih ⟨v', hv', s, hs, hsp⟩
        cases b with
        | false =>
          rw [list_volumes_cons_false cluster_id v rest hc]
          exact ⟨e, he⟩
        | true =>
          rw [list_volumes_cons_true cluster_id v rest hc]
          cases hb : _blockdevicevolume_from_cinder_volume v with
          | error e0 => exact ⟨e0, rfl⟩
          | ok bv =>
            simp only [he]
            exact ⟨e, rfl⟩

/-- C1 (amended): whenever `list_volumes` succeeds, it returns a record
for a provider volume iff that volume's metadata contains the cluster
label and its value parses as a UUID equal to the configured cluster id;
a listing in which every cluster label is absent or well-formed (and every
owned volume maps to a record) never raises; but a volume whose cluster
label is present and malformed makes `list_volumes` raise the UUID parse
error rather than being excluded by filtering. -/
theorem list_volumes_cluster_filter (cluster_id : Nat) (listing : List CinderVolume) :
    (∀ vols, list_volumes listing cluster_id = Except.ok vols →
      ∀ bv, bv ∈ vols ↔ ∃ v, v ∈ listing ∧
        (∃ s, metaGet v.metadata CLUSTER_ID_LABEL = some s ∧
          parseUUID s = some cluster_id) ∧
        _blockdevicevolume_from_cinder_volume v = Except.ok bv)
    ∧ ((∀ v, v ∈ listing → listEntryClean cluster_id v = true) →
      ∃ vols, list_volumes listing cluster_id = Except.ok vols)
    ∧ ((∃ v, v ∈ listing ∧ ∃ s, metaGet v.metadata CLUSTER_ID_LABEL = some s ∧
        parseUUID s = none) →
      ∃ e, list_volumes listing cluster_id = Except.error e) := by
  refine ⟨?_, list_volumes_clean_ok cluster_id listing,
    list_volumes_malformed_error cluster_id listing⟩
  intro vols h bv
  rw [list_volumes_mem_iff cluster_id listing vols h bv]
  constructor
  · rintro ⟨v, hv, hown, hmap⟩
    exact ⟨v, hv, (is_cluster_volume_ok_true_iff cluster_id v).mp hown, hmap⟩
  · rintro ⟨v, hv, hlab, hmap⟩
    exact ⟨v, hv, (is_cluster_volume_ok_true_iff cluster_id v).mpr hlab, hmap⟩

/-- C1 witness: on a clean one-volume listing owned by cluster 5 the
filtering succeeds, as the amended claim's second conjunct asserts. -/
theorem list_volumes_cluster_filter_witness :
    (∀ v, v ∈ [sampleOwnedVolume] → listEntryClean 5 v = true) ∧
      ∃ vols, list_volumes [sampleOwnedVolume] 5 = Except.ok vols :=
  ⟨by decide, (list_volumes_cluster_filter 5 [sampleOwnedVolume]).2.1 (by decide)⟩

/-- C1 counterexample: a provider volume whose cluster label is present
but malformed makes `list_volumes` raise the UUID parse error instead of
excluding the volume from the result, contradicting the claim that such a
volume is excluded by filtering without an exception. -/
theorem list_volumes_malformed_label_raises :
    list_volumes [badClusterLabelVolume] 0 = Except.error PyErr.valueError ∧
      list_volumes [badClusterLabelVolume] 0 ≠ Except.ok [] := by
  constructor
  · rfl
  · intro h
    rw [show list_volumes [badClusterLabelVolume] 0 = Except.error PyErr.valueError
      from rfl] at h
    cases h

theorem waitLoop_timeout_sound (listAt : Nat → List CinderVolume) (now : Nat → ℚ)
    (start : ℚ) (expected : CinderVolume) (status : String) (limit : ℚ) :
    ∀ fuel n e, waitLoop listAt now start expected status limit n fuel =
        WaitResult.timeout e →
      e.expected_volume = expected ∧ e.expected_status = status ∧
        e.time_limit = limit ∧ limit ≤ e.elapsed := by
  intro fuel
  induction fuel with
  | zero => intro n e h; cases h
  | succ f ih =>
    intro n e h
    rw [waitLoop] at h
    cases hf : (listAt n).find? (volumeMatches expected.id status) with
    | some v => simp only [hf] at h; cases h
    | none =>
      simp only [hf] at h
      by_cases ht : now n - start < limit
      · rw [if_pos ht] at h
        exact ih (n + 1) e h
      · rw [if_neg ht] at h
        cases h
        exact ⟨rfl, rfl, rfl, le_of_not_lt ht⟩

theorem waitLoop_timeout_complete (listAt : Nat → List CinderVolume) (now : Nat → ℚ)
    (start : ℚ) (expected : CinderVolume) (status : String) (limit : ℚ) :
    ∀ n i, (∀ m, i ≤ m → m ≤ i + n →
        (listAt m).find? (volumeMatches expected.id status) = none) →
      limit ≤ now (i + n) - start →
      ∃ e, waitLoop listAt now start expected status limit i (n + 1) =
          WaitResult.timeout e ∧ limit ≤ e.elapsed := by
  intro n
  induction n with
  | zero =>
    intro i hnone hlim
    have hl : limit ≤ now i - start := by simpa using hlim
    rw [waitLoop]
    simp only [hnone i (le_refl i) (by omega)]
    rw [if_neg (not_lt.mpr hl)]
    exact ⟨_, rfl, hl⟩
  | succ n ih =>
    intro i hnone hlim
    rw [waitLoop]
    simp only [hnone i (le_refl i) (by omega)]
    by_cases ht : now i - start < limit
    · rw [if_pos ht]
      exact ih (i + 1) (fun m h1 h2 => hnone m (by omega) (by omega))
        (by rw [show i + 1 + n = i + (n + 1) from by omega]; exact hlim)
    · rw [if_neg ht]
      exact ⟨_, rfl, le_of_not_lt ht⟩

/-- C4 (confirmed): whenever `wait_for_volume` fails with the timeout it
carries the target volume, the expected status, the elapsed time and the
limit, and the reported elapsed time is at least the limit (so it never
raises while elapsed time is still below the limit); and whenever no
listing shows the target id with the expected status through the poll at
which the clock crosses the limit, it does fail with such a timeout. -/
theorem wait_for_volume_timeout_bounds (listAt : Nat → List CinderVolume)
    (now : Nat → ℚ) (start : ℚ) (expected : CinderVolume) (status : String)
    (limit : ℚ) :
    (∀ fuel e, wait_for_volume listAt now start expected status limit fuel =
        WaitResult.timeout e →
      e.expected_volume = expected ∧ e.expected_status = status ∧
        e.time_limit = limit ∧ limit ≤ e.elapsed)
    ∧ (∀ n, (∀ m, m ≤ n →
        (listAt m).find? (volumeMatches expected.id status) = none) →
      limit ≤ now n - start →
      ∃ e, wait_for_volume listAt now start expected status limit (n + 1) =
          WaitResult.timeout e ∧ limit ≤ e.elapsed) := by
  constructor
  · intro fuel e h
    exact waitLoop_timeout_sound listAt now start expected status limit fuel 0 e h
  · intro n hnone hlim
    exact waitLoop_timeout_complete listAt now start expected status limit n 0
      (fun m h1 h2 => hnone m (by omega)) (by simpa using hlim)

/-- C4 witness: with an always-empty listing and a clock reaching the
limit at the second poll, `wait_for_volume` times out with elapsed ≥ 60. -/
theorem wait_for_volume_timeout_bounds_witness :
    (∀ m, m ≤ 1 →
      (((fun _ => []) : Nat → List CinderVolume) m).find?
        (volumeMatches sampleOwnedVolume.id "available") = none) ∧
    ∃ e, wait_for_volume (fun _ => []) (fun n => (n : ℚ) * 60) 0
        sampleOwnedVolume "available" 60 2 = WaitResult.timeout e ∧
      60 ≤ e.elapsed := by
  refine ⟨fun m hm => rfl, ?_⟩
  exact (wait_for_volume_timeout_bounds (fun _ => []) (fun n => (n : ℚ) * 60) 0
    sampleOwnedVolume "available" 60).2 1 (fun m hm => rfl) (by norm_num)

/-- C5 (confirmed): when the cluster-scoped listing maps cleanly, an
`attach_volume` call whose blockdevice_id is carried by no cluster-scoped
volume fails with `UnknownVolume` carrying that id and issues no call to
the compute capability (empty call log); and when some cluster-scoped
volume carries the id, the `_get` lookup succeeds. -/
theorem attach_volume_unknown_volume (listing : List CinderVolume)
    (listAt : Nat → List CinderVolume) (now : Nat → ℚ) (start : ℚ) (fuel : Nat)
    (novaResp : String → String → String → CinderVolume) (xenstoreName : String)
    (devChildren : List String) (devExists : String → Bool) (cluster_id : Nat)
    (blockdevice_id : String) (host : String) (vols : List BlockDeviceVolume)
    (hlist : list_volumes listing cluster_id = Except.ok vols) :
    ((∀ v, v ∈ vols → v.blockdevice_id ≠ blockdevice_id) →
      attach_volume listing listAt now start fuel novaResp xenstoreName
          devChildren devExists cluster_id blockdevice_id host =
        (Run.err (PyErr.unknownVolume blockdevice_id), []))
    ∧ ((∃ v, v ∈ vols ∧ v.blockdevice_id = blockdevice_id) →
      ∃ v, _get listing cluster_id blockdevice_id = Except.ok v ∧
        v.blockdevice_id = blockdevice_id) := by
  constructor
  · intro hnone
    have hfind : vols.find? (fun v => v.blockdevice_id == blockdevice_id) = none := by
      rw [List.find?_eq_none]
      intro v hv
      simp [hnone v hv]
    have hget : _get listing cluster_id blockdevice_id =
        Except.error (PyErr.unknownVolume blockdevice_id) := by
      rw [_get]
      simp only [hlist, hfind]
    rw [attach_volume]
    simp only [hget]
  · rintro ⟨v, hv, hid⟩
    have hsome : (vols.find? (fun v => v.blockdevice_id == blockdevice_id)).isSome := by
      rw [List.find?_isSome]
      exact ⟨v, hv, by simp [hid]⟩
    obtain ⟨v0, hv0⟩ := Option.isSome_iff_exists.mp hsome
    refine ⟨v0, ?_, ?_⟩
    · rw [_get]
      simp only [hlist, hv0]
    · have := List.find?_some hv0
      simpa using this

/-- C5 witness: a lookup for a missing id on a clean one-volume listing
fails with `UnknownVolume` and an empty call log, and a lookup for the
present id succeeds. -/
theorem attach_volume_unknown_volume_witness :
    (attach_volume [sampleOwnedVolume] (fun _ => []) (fun _ => 0) 0 1
        (fun _ _ _ => sampleNovaVolume) sampleXenName [] (fun _ => true) 5
        "vol-404" "node-1" = (Run.err (PyErr.unknownVolume "vol-404"), []))
    ∧ ∃ v, _get [sampleOwnedVolume] 5 "vol-1" = Except.ok v ∧
        v.blockdevice_id = "vol-1" := by
  constructor
  · exact (attach_volume_unknown_volume [sampleOwnedVolume] (fun _ => [])
      (fun _ => 0) 0 1 (fun _ _ _ => sampleNovaVolume) sampleXenName []
      (fun _ => true) 5 "vol-404" "node-1" _ rfl).1 (by decide)
  · exact (attach_volume_unknown_volume [sampleOwnedVolume] (fun _ => [])
      (fun _ => 0) 0 1 (fun _ _ _ => sampleNovaVolume) sampleXenName []
      (fun _ => true) 5 "vol-1" "node-1" _ rfl).2 (by decide)

/-- C6 (amended): when the provider reports the volume in-use but the
chosen device path is absent, `attach_volume` fails with a bare assertion
error — carrying neither the blockdevice_id nor the device path — instead
of returning a record; when the path exists, the verification passes and
the looked-up record is returned with `host` set. -/
theorem attach_volume_verification (listing : List CinderVolume)
    (listAt : Nat → List CinderVolume) (now : Nat → ℚ) (start : ℚ) (fuel : Nat)
    (novaResp : String → String → String → CinderVolume) (xenstoreName : String)
    (devChildren : List String) (devExists : String → Bool) (cluster_id : Nat)
    (blockdevice_id : String) (host : String) (uv : BlockDeviceVolume) (iu : Nat)
    (dp : String) (w : CinderVolume)
    (hget : _get listing cluster_id blockdevice_id = Except.ok uv)
    (hiu : _instance_uuid xenstoreName = some iu)
    (hdp : _next_device devChildren = some dp)
    (hwait : waitLoop listAt now start
        (novaResp (uuidStr iu) uv.blockdevice_id dp) "in-use" 60 0 fuel =
      WaitResult.found w) :
    (devExists dp = false →
      attach_volume listing listAt now start fuel novaResp xenstoreName
          devChildren devExists cluster_id blockdevice_id host =
        (Run.err PyErr.assertionError,
          [ProviderCall.novaCreateServerVolume (uuidStr iu) uv.blockdevice_id dp]))
    ∧ (devExists dp = true →
      attach_volume listing listAt now start fuel novaResp xenstoreName
          devChildren devExists cluster_id blockdevice_id host =
        (Run.ok { uv with host := some host },
          [ProviderCall.novaCreateServerVolume (uuidStr iu) uv.blockdevice_id dp])) := by
  constructor
  · intro hex
    rw [attach_volume]
    simp [hget, hiu, hdp, hwait, hex]
  · intro hex
    rw [attach_volume]
    simp [hget, hiu, hdp, hwait, hex]

theorem sampleOwnedVolume_record :
    _blockdevicevolume_from_cinder_volume sampleOwnedVolume =
      Except.ok { blockdevice_id := "vol-1", size := 1000000000,
                  host := none, dataset_id := 7 } := by
  have hm : metaGet sampleOwnedVolume.metadata DATASET_ID_LABEL =
      some (uuidStr 7) := by decide
  have hp : parseUUID (uuidStr 7) = some 7 := by decide
  have hsize : pyInt (sampleOwnedVolume.size * 1000000000) = 1000000000 := by
    rw [show sampleOwnedVolume.size = 1 from rfl, pyInt]
    norm_num
  rw [_blockdevicevolume_from_cinder_volume]
  simp only [hm, hp, hsize]
  rfl

theorem sample_get :
    _get [sampleOwnedVolume] 5 "vol-1" =
      Except.ok { blockdevice_id := "vol-1", size := 1000000000,
                  host := none, dataset_id := 7 } := by
  have hc : _is_cluster_volume 5 sampleOwnedVolume = Except.ok true := rfl
  have hl : list_volumes [sampleOwnedVolume] 5 =
      Except.ok [{ blockdevice_id := "vol-1", size := 1000000000,
                   host := none, dataset_id := 7 }] := by
    rw [list_volumes_cons_true 5 sampleOwnedVolume [] hc]
    simp only [sampleOwnedVolume_record]
    rfl
  rw [_get]
  simp only [hl]
  rfl

/-- C6 witness: with the device path present, the verification passes and
the record is returned with the host set. -/
theorem attach_volume_verification_witness :
    attach_volume [sampleOwnedVolume] (fun _ => [sampleNovaVolume]) (fun _ => 0)
        0 1 (fun _ _ _ => sampleNovaVolume) sampleXenName [] (fun _ => true) 5
        "vol-1" "node-1" =
      (Run.ok { blockdevice_id := "vol-1", size := 1000000000,
                host := some "node-1", dataset_id := 7 },
        [ProviderCall.novaCreateServerVolume (uuidStr 1) "vol-1" "/dev/xvda"]) := by
  exact (attach_volume_verification [sampleOwnedVolume] (fun _ => [sampleNovaVolume])
    (fun _ => 0) 0 1 (fun _ _ _ => sampleNovaVolume) sampleXenName []
    (fun _ => true) 5 "vol-1" "node-1"
    { blockdevice_id := "vol-1", size := 1000000000, host := none, dataset_id := 7 }
    1 "/dev/xvda" sampleNovaVolume sample_get rfl rfl rfl).2 rfl

/-- C6 counterexample: at a concrete attachment where the device path is
absent, the failure the code raises is a bare assertion error, not an
error carrying the blockdevice_id and device path as the claim states. -/
theorem attach_assert_carries_no_payload :
    attach_volume [sampleOwnedVolume] (fun _ => [sampleNovaVolume]) (fun _ => 0)
        0 1 (fun _ _ _ => sampleNovaVolume) sampleXenName [] (fun _ => false) 5
        "vol-1" "node-1" =
      (Run.err PyErr.assertionError,
        [ProviderCall.novaCreateServerVolume (uuidStr 1) "vol-1" "/dev/xvda"])
    ∧ PyErr.assertionError ≠
        PyErr.attachmentVerificationFailed "vol-1" "/dev/xvda" :=
  ⟨rfl, by decide⟩

/-- C7 (amended): mapping a provider volume whose dataset label is present
but not a valid UUID fails with the bare UUID parse error — identifying
neither the volume nor the field — rather than coercing the value or
returning a record. -/
theorem mapper_malformed_dataset_label (v : CinderVolume) (s : String)
    (hm : metaGet v.metadata DATASET_ID_LABEL = some s)
    (hp : parseUUID s = none) :
    _blockdevicevolume_from_cinder_volume v = Except.error PyErr.valueError := by
  rw [_blockdevicevolume_from_cinder_volume]
  simp only [hm, hp]

/-- C7 witness: the mapper fails on a concrete cluster-owned volume whose
dataset label is malformed. -/
theorem mapper_malformed_dataset_label_witness :
    metaGet badDatasetLabelVolume.metadata DATASET_ID_LABEL = some "not-a-uuid" ∧
    _blockdevicevolume_from_cinder_volume badDatasetLabelVolume =
      Except.error PyErr.valueError :=
  ⟨by decide, mapper_malformed_dataset_label badDatasetLabelVolume "not-a-uuid"
    (by decide) (by decide)⟩

/-- C7 counterexample: on a concrete cluster-owned volume with a malformed
dataset label the error raised is the bare UUID parse error, not an error
carrying the volume id and the field name as the claim states. -/
theorem mapper_valueerror_carries_no_payload :
    _blockdevicevolume_from_cinder_volume badDatasetLabelVolume =
      Except.error PyErr.valueError
    ∧ PyErr.valueError ≠ PyErr.malformedMetadata "vol-bad-ds" DATASET_ID_LABEL :=
  ⟨rfl, by decide⟩

/-- C8 (confirmed): `detach_volume`, `destroy_volume`, `resize_volume` and
`get_device_path` issue no capability call (empty call log, hence provider
state unchanged) and return no value; `get_device_path` returns `None`
rather than a path. -/
theorem lifecycle_noops (blockdevice_id : String) (size : Nat) :
    detach_volume blockdevice_id = [] ∧ destroy_volume blockdevice_id = [] ∧
    resize_volume blockdevice_id size = [] ∧
    get_device_path blockdevice_id = (none, []) :=
  ⟨rfl, rfl, rfl, rfl⟩

theorem ascii_lowercase_get? (n : Nat) (h : n < 26) :
    ascii_lowercase.get? n = some (ascii_lowercase.getD n 'a') := by
  interval_cases n <;> rfl

/-- C9 (confirmed): with fewer than 26 matching device nodes present,
`_next_device` returns the fixed prefix `/dev/xvd` followed by the
lowercase letter whose alphabet index equals the number of existing
`/dev` entries that start with the prefix and have a 4-character
basename. -/
theorem next_device_letter (devChildren : List String)
    (h : (devChildren.filter matchesXvd).length < 26) :
    _next_device devChildren =
      some (String.push "/dev/xvd"
        (ascii_lowercase.getD (devChildren.filter matchesXvd).length 'a')) := by
  rw [_next_device]
  simp only [ascii_lowercase_get? _ h]

/-- C9 witness: with one matching node `/dev/xvda` present, the allocator
returns `/dev/xvdb`. -/
theorem next_device_letter_witness :
    (["/dev/xvda"].filter matchesXvd).length < 26 ∧
    _next_device ["/dev/xvda"] = some "/dev/xvdb" := by
  refine ⟨by decide, ?_⟩
  rw [next_device_letter ["/dev/xvda"] (by decide)]
  rfl

/-- C10 (confirmed): with 26 entries `/dev/xvda` … `/dev/xvdz` present the
allocator's letter lookup indexes past the end of the alphabet and fails
with the index error instead of returning a path, and `attach_volume` on
such a host fails before issuing the compute attach request (its call log
is empty). -/
theorem next_device_overflow_concrete :
    _next_device devFull = none ∧
    attach_volume [sampleOwnedVolume] (fun _ => [sampleNovaVolume]) (fun _ => 0)
        0 1 (fun _ _ _ => sampleNovaVolume) sampleXenName devFull
        (fun _ => true) 5 "vol-1" "node-1" = (Run.err PyErr.indexError, []) :=
  ⟨rfl, rfl⟩

theorem createMetadata_dataset (cluster_id dataset_id : Nat) :
    metaGet (createMetadata cluster_id dataset_id) DATASET_ID_LABEL =
      some (uuidStr dataset_id) := by
  rfl

theorem create_volume_requested_spec
    (createResp : ℚ → List (String × String) → CinderVolume)
    (listAt : Nat → List CinderVolume) (now : Nat → ℚ) (start : ℚ) (fuel : Nat)
    (cluster_id dataset_id : Nat) (size : Nat) (hdid : dataset_id < 2 ^ 128)
    (hecho : (createResp (byteToGB size) (createMetadata cluster_id dataset_id)).metadata =
      createMetadata cluster_id dataset_id)
    (w : CinderVolume)
    (hwait : waitLoop listAt now start
        (createResp (byteToGB size) (createMetadata cluster_id dataset_id))
        "available" 60 0 fuel = WaitResult.found w) :
    _blockdevicevolume_from_cinder_volume
        (createResp (byteToGB size) (createMetadata cluster_id dataset_id)) =
      Except.ok
        { blockdevice_id :=
            (createResp (byteToGB size) (createMetadata cluster_id dataset_id)).id
          size := pyInt
            ((createResp (byteToGB size) (createMetadata cluster_id dataset_id)).size
              * 1000000000)
          host := none
          dataset_id := dataset_id }
    ∧ (create_volume createResp listAt now start fuel cluster_id dataset_id size).1 =
      Run.ok
        { blockdevice_id :=
            (createResp (byteToGB size) (createMetadata cluster_id dataset_id)).id
          size := pyInt
            ((createResp (byteToGB size) (createMetadata cluster_id dataset_id)).size
              * 1000000000)
          host := none
          dataset_id := dataset_id } := by
  have hmap : _blockdevicevolume_from_cinder_volume
      (createResp (byteToGB size) (createMetadata cluster_id dataset_id)) =
      Except.ok
        { blockdevice_id :=
            (createResp (byteToGB size) (createMetadata cluster_id dataset_id)).id
          size := pyInt
            ((createResp (byteToGB size) (createMetadata cluster_id dataset_id)).size
              * 1000000000)
          host := none
          dataset_id := dataset_id } := by
    rw [_blockdevicevolume_from_cinder_volume]
    simp only [hecho, createMetadata_dataset, parseUUID_uuidStr dataset_id hdid]
  refine ⟨hmap, ?_⟩
  rw [create_volume]
  simp only [hwait, hmap]

/-- C2 (confirmed): a successful `create_volume` returns the record built
from the originally requested provider volume — the create call's return
value, which carries the requested metadata — independently of whatever
the polling observed; consequently the returned record's dataset_id
equals the input dataset_id and its host is None. -/
theorem create_volume_uses_requested
    (createResp : ℚ → List (String × String) → CinderVolume)
    (listAt : Nat → List CinderVolume) (now : Nat → ℚ) (start : ℚ) (fuel : Nat)
    (cluster_id dataset_id : Nat) (size : Nat) (hdid : dataset_id < 2 ^ 128)
    (hecho : (createResp (byteToGB size) (createMetadata cluster_id dataset_id)).metadata =
      createMetadata cluster_id dataset_id)
    (w : CinderVolume)
    (hwait : waitLoop listAt now start
        (createResp (byteToGB size) (createMetadata cluster_id dataset_id))
        "available" 60 0 fuel = WaitResult.found w) :
    ∃ bv, (create_volume createResp listAt now start fuel cluster_id dataset_id size).1 =
        Run.ok bv ∧
      _blockdevicevolume_from_cinder_volume
        (createResp (byteToGB size) (createMetadata cluster_id dataset_id)) =
          Except.ok bv ∧
      bv.dataset_id = dataset_id ∧ bv.host = none := by
  obtain ⟨hmap, hrun⟩ := create_volume_requested_spec createResp listAt now start
    fuel cluster_id dataset_id size hdid hecho w hwait
  exact ⟨_, hrun, hmap, rfl, rfl⟩

/-- C2 witness: a concrete successful create for dataset 7 returns the
record mapped from the requested volume, with dataset_id 7 and host None. -/
theorem create_volume_uses_requested_witness :
    7 < 2 ^ 128 ∧
    ∃ bv, (create_volume sampleCreateResp
        (fun _ => [sampleCreateResp (byteToGB 1500000000) (createMetadata 5 7)])
        (fun _ => 0) 0 1 5 7 1500000000).1 = Run.ok bv ∧
      _blockdevicevolume_from_cinder_volume
        (sampleCreateResp (byteToGB 1500000000) (createMetadata 5 7)) =
          Except.ok bv ∧
      bv.dataset_id = 7 ∧ bv.host = none :=
  ⟨by norm_num, create_volume_uses_requested sampleCreateResp
    (fun _ => [sampleCreateResp (byteToGB 1500000000) (createMetadata 5 7)])
    (fun _ => 0) 0 1 5 7 1500000000 (by norm_num) rfl
    (sampleCreateResp (byteToGB 1500000000) (createMetadata 5 7)) rfl⟩

/-- C3 (confirmed): assuming the provider echoes the requested capacity,
the size of the record a successful `create_volume` returns — the
requested byte size converted to GB on the way out and back to bytes on
the way in — differs from the requested size by less than one GB (under
the exact-arithmetic model it is exactly the requested size). -/
theorem create_volume_size_within_one_gb
    (createResp : ℚ → List (String × String) → CinderVolume)
    (listAt : Nat → List CinderVolume) (now : Nat → ℚ) (start : ℚ) (fuel : Nat)
    (cluster_id dataset_id : Nat) (size : Nat) (hdid : dataset_id < 2 ^ 128)
    (hecho : (createResp (byteToGB size) (createMetadata cluster_id dataset_id)).metadata =
      createMetadata cluster_id dataset_id)
    (hsize : (createResp (byteToGB size) (createMetadata cluster_id dataset_id)).size =
      byteToGB size)
    (w : CinderVolume)
    (hwait : waitLoop listAt now start
        (createResp (byteToGB size) (createMetadata cluster_id dataset_id))
        "available" 60 0 fuel = WaitResult.found w) :
    ∃ bv, (create_volume createResp listAt now start fuel cluster_id dataset_id size).1 =
        Run.ok bv ∧
      (bv.size - (size : ℤ)).natAbs < 1000000000 := by
  obtain ⟨hmap, hrun⟩ := create_volume_requested_spec createResp listAt now start
    fuel cluster_id dataset_id size hdid hecho w hwait
  refine ⟨_, hrun, ?_⟩
  have h1 : (createResp (byteToGB size) (createMetadata cluster_id dataset_id)).size
      * 1000000000 = (size : ℚ) := by
    rw [hsize, byteToGB, div_mul_cancel₀]
    norm_num
  have h2 : pyInt ((size : ℚ)) = (size : ℤ) := by
    rw [pyInt, if_pos (by positivity)]
    exact Int.floor_natCast size
  show (pyInt ((createResp (byteToGB size) (createMetadata cluster_id dataset_id)).size
      * 1000000000) - (size : ℤ)).natAbs < 1000000000
  rw [h1, h2]
  simp

/-- C3 witness: requesting 1,500,000,000 bytes with an echoing provider
returns a record whose size is within one GB of the request. -/
theorem create_volume_size_within_one_gb_witness :
    7 < 2 ^ 128 ∧
    ∃ bv, (create_volume sampleCreateResp
        (fun _ => [sampleCreateResp (byteToGB 1500000000) (createMetadata 5 7)])
        (fun _ => 0) 0 1 5 7 1500000000).1 = Run.ok bv ∧
      (bv.size - (1500000000 : ℤ)).natAbs < 1000000000 :=
  ⟨by norm_num, by
    have h := create_volume_size_within_one_gb sampleCreateResp
      (fun _ => [sampleCreateResp (byteToGB 1500000000) (createMetadata 5 7)])
      (fun _ => 0) 0 1 5 7 1500000000 (by norm_num) rfl rfl
      (sampleCreateResp (byteToGB 1500000000) (createMetadata 5 7)) rfl
    exact_mod_cast h⟩

end Cinder
